import Mathlib

/-!
Verification of the Adafruit_LIS3MDL magnetometer driver.

Shallow embedding of `src/Adafruit_LIS3MDL.cpp` / `src/Adafruit_LIS3MDL.h`.

Modelling choices:
* Device registers are bytes addressed by `Nat`; the register file is a
  function `Nat → Nat` and every write stores the value reduced mod 256.
* The Adafruit_BusIO register / bit-field helper library is an external
  dependency (not part of this repository's sources); its read and
  read-modify-write semantics are modelled from the spec (§4.2).
* `float`/`double` arithmetic of the source is modelled over `ℚ`
  (exact real-valued arithmetic, ignoring floating-point rounding).
* Bus transfers that fetch data produced by the physical device
  (the 6-byte sample read, the post-reset register contents) are
  modelled by quantifying over the bytes the bus delivers.
* Wall-clock delays and register transactions are recorded in a trace
  of `Action`s so ordering claims can be stated.
-/

namespace LIS3MDL

/-- Register addresses, from Adafruit_LIS3MDL.h. -/
def LIS3MDL_REG_WHO_AM_I : Nat := 0x0F

/-- Control register 1 address. -/
def LIS3MDL_REG_CTRL_REG1 : Nat := 0x20

/-- Control register 2 address. -/
def LIS3MDL_REG_CTRL_REG2 : Nat := 0x21

/-- Control register 3 address. -/
def LIS3MDL_REG_CTRL_REG3 : Nat := 0x22

/-- Control register 4 address. -/
def LIS3MDL_REG_CTRL_REG4 : Nat := 0x23

/-- Status register address. -/
def LIS3MDL_REG_STATUS : Nat := 0x27

/-- X axis low byte output register address. -/
def LIS3MDL_REG_OUT_X_L : Nat := 0x28

/-- Interrupt configuration register address. -/
def LIS3MDL_REG_INT_CFG : Nat := 0x30

/-- Interrupt threshold low byte register address. -/
def LIS3MDL_REG_INT_THS_L : Nat := 0x32

/-- The magnetometer ranges (`lis3mdl_range_t`). -/
inductive lis3mdl_range_t where
  | range4
  | range8
  | range12
  | range16
  deriving DecidableEq, Repr

/-- Numeric value of each range enumerator, from the header. -/
def lis3mdl_range_t.toNat : lis3mdl_range_t → Nat
  | .range4 => 0b00
  | .range8 => 0b01
  | .range12 => 0b10
  | .range16 => 0b11

/-- The C cast `(lis3mdl_range_t)` applied to a 2-bit field value. -/
def rangeOfNat (n : Nat) : lis3mdl_range_t :=
  if n = 0 then .range4
  else if n = 1 then .range8
  else if n = 2 then .range12
  else .range16

/-- The magnetometer data rates (`lis3mdl_dataRate_t`), FAST_ODR included. -/
inductive lis3mdl_dataRate_t where
  | rate0_625
  | rate1_25
  | rate2_5
  | rate5
  | rate10
  | rate20
  | rate40
  | rate80
  | rate155
  | rate300
  | rate560
  | rate1000
  deriving DecidableEq, Repr

/-- Numeric value of each data-rate enumerator, from the header. -/
def lis3mdl_dataRate_t.toNat : lis3mdl_dataRate_t → Nat
  | .rate0_625 => 0b0000
  | .rate1_25 => 0b0010
  | .rate2_5 => 0b0100
  | .rate5 => 0b0110
  | .rate10 => 0b1000
  | .rate20 => 0b1010
  | .rate40 => 0b1100
  | .rate80 => 0b1110
  | .rate155 => 0b0001
  | .rate300 => 0b0011
  | .rate560 => 0b0101
  | .rate1000 => 0b0111

/-- The magnetometer performance modes (`lis3mdl_performancemode_t`). -/
inductive lis3mdl_performancemode_t where
  | lowpower
  | medium
  | high
  | ultrahigh
  deriving DecidableEq, Repr

/-- Numeric value of each performance-mode enumerator. -/
def lis3mdl_performancemode_t.toNat : lis3mdl_performancemode_t → Nat
  | .lowpower => 0b00
  | .medium => 0b01
  | .high => 0b10
  | .ultrahigh => 0b11

/-- The C cast `(lis3mdl_performancemode_t)` applied to a 2-bit field value. -/
def perfOfNat (n : Nat) : lis3mdl_performancemode_t :=
  if n = 0 then .lowpower
  else if n = 1 then .medium
  else if n = 2 then .high
  else .ultrahigh

/-- The magnetometer operation modes (`lis3mdl_operationmode_t`). -/
inductive lis3mdl_operationmode_t where
  | continuous
  | single
  | powerdown
  deriving DecidableEq, Repr

/-- Numeric value of each operation-mode enumerator. -/
def lis3mdl_operationmode_t.toNat : lis3mdl_operationmode_t → Nat
  | .continuous => 0b00
  | .single => 0b01
  | .powerdown => 0b11

/-- Device register file: byte contents addressed by register address. -/
def RegFile := Nat → Nat

/-- An observable action of the driver on its environment: a register
read, a register write, or a wall-clock delay in milliseconds. -/
inductive Action where
  | readReg (addr : Nat)
  | writeReg (addr val : Nat)
  | delay (ms : Nat)
  deriving DecidableEq, Repr

/-- Read one device register as a byte. -/
def regRead (regs : RegFile) (addr : Nat) : Nat := regs addr % 256

/-- Write one device register (a byte). -/
def regWrite (regs : RegFile) (addr val : Nat) : RegFile :=
  fun a => if a = addr then val % 256 else regs a

/-- Modelled from the spec: Adafruit_BusIO_RegisterBits read
(`readBitField`, §4.2) — read the register, shift right by `offset`,
mask to `width` bits. -/
def bitsRead (regs : RegFile) (addr width offset : Nat) : Nat :=
  (regRead regs addr >>> offset) &&& (2 ^ width - 1)

/-- Modelled from the spec: Adafruit_BusIO_RegisterBits write
(`writeBitField`, §4.2) — read the register, clear the target bits,
OR in `(value & mask) << offset`, write the register back, preserving
bits outside the field.  Returns the new register file together with the
bus transactions performed. -/
def bitsWrite (regs : RegFile) (addr width offset val : Nat) :
    RegFile × List Action :=
  let old := regRead regs addr
  let mask := (2 ^ width - 1) <<< offset
  let newVal := (old &&& (255 ^^^ mask)) ||| ((val &&& (2 ^ width - 1)) <<< offset)
  (regWrite regs addr newVal, [.readReg addr, .writeReg addr newVal])

/-- I2C transport binding (`Adafruit_I2CDevice`): its constructor arguments. -/
structure I2CDev where
  addr : Nat
  deriving DecidableEq, Repr

/-- SPI transport binding (`Adafruit_SPIDevice`): hardware (chip select +
frequency) or software (four pins + frequency) variant. -/
inductive SPIDev where
  | hw (cs_pin : Nat) (frequency : Nat)
  | sw (cs_pin sck_pin miso_pin mosi_pin : Int) (frequency : Nat)
  deriving DecidableEq, Repr

/-- The driver handle (`class Adafruit_LIS3MDL`): transport slots, the
device's register file as seen over the bus, the buffered range, the last
raw sample and its gauss conversion. -/
structure Dev where
  i2c_dev : Option I2CDev
  spi_dev : Option SPIDev
  regs : RegFile
  rangeBuffered : lis3mdl_range_t
  x : Int
  y : Int
  z : Int
  x_gauss : ℚ
  y_gauss : ℚ
  z_gauss : ℚ

/-- A freshly constructed handle over a given register file
(`Adafruit_LIS3MDL()` plus the header's member initialisers). -/
def mkDev (regs : RegFile) : Dev :=
  { i2c_dev := none, spi_dev := none, regs := regs,
    rangeBuffered := .range4, x := 0, y := 0, z := 0,
    x_gauss := 0, y_gauss := 0, z_gauss := 0 }

/-- Decode a 16-bit two's-complement value. -/
def toInt16 (n : Nat) : Int :=
  if n % 65536 < 32768 then (n % 65536 : Int) else (n % 65536 : Int) - 65536

/-- Outcome of a 6-byte bus transfer into a local buffer: the success
flag the transport reports, and the bytes found in the buffer afterwards. -/
structure Bus6 where
  ok : Bool
  bytes : Fin 6 → Nat

/-- LSB-per-gauss scale selected by `read()`'s switch on `rangeBuffered`. -/
def scaleOf : lis3mdl_range_t → ℚ
  | .range16 => 1711
  | .range12 => 2281
  | .range8 => 3421
  | .range4 => 6842

/-- Embedding of `Adafruit_LIS3MDL::read()`: 6-byte read from OUT_X_L, little-endian
signed 16-bit decode into `x,y,z`, then conversion to gauss dividing by
the scale chosen by the cached `rangeBuffered`.  The bus outcome is the
parameter `bus`; the success flag `bus.ok` is not consulted. -/
def read (bus : Bus6) (s : Dev) : Dev :=
  let b : Fin 6 → Nat := fun i => bus.bytes i % 256
  let xv := toInt16 (b 0 ||| (b 1 <<< 8))
  let yv := toInt16 (b 2 ||| (b 3 <<< 8))
  let zv := toInt16 (b 4 ||| (b 5 <<< 8))
  let scale := scaleOf s.rangeBuffered
  { s with x := xv, y := yv, z := zv,
           x_gauss := (xv : ℚ) / scale,
           y_gauss := (yv : ℚ) / scale,
           z_gauss := (zv : ℚ) / scale }

/-- The bus transactions `read()` performs. -/
def readTrace : List Action := [.readReg LIS3MDL_REG_OUT_X_L]

/-- Embedding of `Adafruit_LIS3MDL::setPerformanceMode`: write the 2-bit field at
offset 5 of CTRL_REG1 (X/Y) and the 2-bit field at offset 2 of CTRL_REG4
(Z), both with the mode value. -/
def setPerformanceMode (mode : lis3mdl_performancemode_t) (s : Dev) :
    Dev × List Action :=
  let (r1, t1) := bitsWrite s.regs LIS3MDL_REG_CTRL_REG1 2 5 mode.toNat
  let (r2, t2) := bitsWrite r1 LIS3MDL_REG_CTRL_REG4 2 2 mode.toNat
  ({ s with regs := r2 }, t1 ++ t2)

/-- Embedding of `Adafruit_LIS3MDL::getPerformanceMode`: read back only the 2-bit
X/Y field at offset 5 of CTRL_REG1. -/
def getPerformanceMode (s : Dev) : lis3mdl_performancemode_t :=
  perfOfNat (bitsRead s.regs LIS3MDL_REG_CTRL_REG1 2 5)

/-- Embedding of `Adafruit_LIS3MDL::setDataRate`: for each of the four fast-ODR rates
first set the paired performance mode; then `delay(10)`; then write the
4-bit rate field at offset 1 of CTRL_REG1 with the rate's enumerator
value. -/
def setDataRate (dataRate : lis3mdl_dataRate_t) (s : Dev) :
    Dev × List Action :=
  let (s1, t1) :=
    match dataRate with
    | .rate155 => setPerformanceMode .ultrahigh s
    | .rate300 => setPerformanceMode .high s
    | .rate560 => setPerformanceMode .medium s
    | .rate1000 => setPerformanceMode .lowpower s
    | _ => (s, [])
  let (r2, t2) := bitsWrite s1.regs LIS3MDL_REG_CTRL_REG1 4 1 dataRate.toNat
  ({ s1 with regs := r2 }, t1 ++ [.delay 10] ++ t2)

/-- Embedding of `Adafruit_LIS3MDL::getDataRate`: the 4-bit field at offset 1 of
CTRL_REG1, read back verbatim (before the C cast back to the enum). -/
def getDataRateBits (s : Dev) : Nat :=
  bitsRead s.regs LIS3MDL_REG_CTRL_REG1 4 1

/-- Embedding of `Adafruit_LIS3MDL::setOperationMode`: 2-bit field at offset 0 of
CTRL_REG3. -/
def setOperationMode (mode : lis3mdl_operationmode_t) (s : Dev) :
    Dev × List Action :=
  let (r1, t1) := bitsWrite s.regs LIS3MDL_REG_CTRL_REG3 2 0 mode.toNat
  ({ s with regs := r1 }, t1)

/-- Embedding of `Adafruit_LIS3MDL::getOperationMode`: the 2-bit field at offset 0 of
CTRL_REG3, read back (before the C cast back to the enum). -/
def getOperationModeBits (s : Dev) : Nat :=
  bitsRead s.regs LIS3MDL_REG_CTRL_REG3 2 0

/-- Embedding of `Adafruit_LIS3MDL::setRange`: write the 2-bit field at offset 5 of
CTRL_REG2, then cache the range in `rangeBuffered`. -/
def setRange (range : lis3mdl_range_t) (s : Dev) : Dev × List Action :=
  let (r1, t1) := bitsWrite s.regs LIS3MDL_REG_CTRL_REG2 2 5 range.toNat
  ({ s with regs := r1, rangeBuffered := range }, t1)

/-- Embedding of `Adafruit_LIS3MDL::getRange`: read the 2-bit field at offset 5 of
CTRL_REG2, re-cache it in `rangeBuffered`, and return it. -/
def getRange (s : Dev) : lis3mdl_range_t × Dev :=
  let r := rangeOfNat (bitsRead s.regs LIS3MDL_REG_CTRL_REG2 2 5)
  (r, { s with rangeBuffered := r })

/-- Embedding of `Adafruit_LIS3MDL::reset`: write the 1-bit reset field at offset 2
of CTRL_REG2, `delay(10)` — during which the device performs its
internal reset, leaving its registers in some state `devAfter` — then
call `getRange()` to re-read and re-cache the range. -/
def reset (devAfter : RegFile) (s : Dev) : Dev × List Action :=
  let (r1, t1) := bitsWrite s.regs LIS3MDL_REG_CTRL_REG2 1 2 1
  let s1 : Dev := { s with regs := r1 }
  let s2 : Dev := { s1 with regs := devAfter }
  let (_, s3) := getRange s2
  (s3, t1 ++ [.delay 10, .readReg LIS3MDL_REG_CTRL_REG2])

/-- Embedding of `Adafruit_LIS3MDL::_init`: read WHO_AM_I; fail unless it is 0x3D;
else reset, set ultra-high performance, 155 Hz rate, ±4 gauss range,
continuous operation, and succeed.  `devAfter` is the device register
state after the hardware reset completes. -/
def _init (devAfter : RegFile) (s : Dev) : Bool × Dev × List Action :=
  if regRead s.regs LIS3MDL_REG_WHO_AM_I ≠ 0x3D then
    (false, s, [.readReg LIS3MDL_REG_WHO_AM_I])
  else
    let (s1, t1) := reset devAfter s
    let (s2, t2) := setPerformanceMode .ultrahigh s1
    let (s3, t3) := setDataRate .rate155 s2
    let (s4, t4) := setRange .range4 s3
    let (s5, t5) := setOperationMode .continuous s4
    (true, s5, .readReg LIS3MDL_REG_WHO_AM_I :: (t1 ++ t2 ++ t3 ++ t4 ++ t5))

/-- Embedding of `Adafruit_LIS3MDL::begin_I2C`: delete any existing transports, clear
the SPI slot, bind a new I2C transport; if the transport handshake
(`i2c_dev->begin()`) fails, return false without touching the device;
otherwise run `_init`. -/
def begin_I2C (i2c_address : Nat) (handshakeOk : Bool) (devAfter : RegFile)
    (s : Dev) : Bool × Dev × List Action :=
  let s1 : Dev := { s with spi_dev := none, i2c_dev := some ⟨i2c_address⟩ }
  if !handshakeOk then (false, s1, [])
  else _init devAfter s1

/-- Embedding of `Adafruit_LIS3MDL::begin_SPI` (hardware SPI): delete any existing
transports, clear the I2C slot, bind a new hardware SPI transport; if the
handshake fails, return false; otherwise run `_init`. -/
def begin_SPI (cs_pin : Nat) (frequency : Nat) (handshakeOk : Bool)
    (devAfter : RegFile) (s : Dev) : Bool × Dev × List Action :=
  let s1 : Dev := { s with i2c_dev := none,
                           spi_dev := some (.hw cs_pin frequency) }
  if !handshakeOk then (false, s1, [])
  else _init devAfter s1

/-- Embedding of `Adafruit_LIS3MDL::begin_SPI` (software SPI): delete any existing
transports, clear the I2C slot, bind a new software SPI transport; if the
handshake fails, return false; otherwise run `_init`. -/
def begin_SPI_soft (cs_pin sck_pin miso_pin mosi_pin : Int)
    (frequency : Nat) (handshakeOk : Bool) (devAfter : RegFile)
    (s : Dev) : Bool × Dev × List Action :=
  let s1 : Dev := { s with i2c_dev := none,
                           spi_dev := some (.sw cs_pin sck_pin miso_pin mosi_pin frequency) }
  if !handshakeOk then (false, s1, [])
  else _init devAfter s1

/-- A sensor event as filled in by `getEvent` (the fields the driver
sets; `magnetic` holds microtesla values). -/
structure sensors_event_t where
  sensor_id : Int
  timestamp : Nat
  magnetic_x : ℚ
  magnetic_y : ℚ
  magnetic_z : ℚ

/-- Embedding of `Adafruit_LIS3MDL::getEvent`: call `read()`, fill the event with the
gauss values scaled ×100 to microtesla, and return true — always. -/
def getEvent (bus : Bus6) (sensorID : Int) (now : Nat) (s : Dev) :
    Bool × sensors_event_t × Dev :=
  let s1 := read bus s
  (true,
   { sensor_id := sensorID, timestamp := now,
     magnetic_x := s1.x_gauss * 100,
     magnetic_y := s1.y_gauss * 100,
     magnetic_z := s1.z_gauss * 100 }, s1)

/-- Embedding of `Adafruit_LIS3MDL::configInterrupt`: compose
`0x08 | enableX<<7 | enableY<<6 | enableZ<<5 | polarity<<2 | latch<<1 |
enableInt` and write it to INT_CFG as a plain overwrite. -/
def configInterrupt (enableX enableY enableZ polarity latch enableInt : Bool)
    (s : Dev) : Dev × List Action :=
  let value : Nat :=
    0x08 ||| ((if enableX then 1 else 0) <<< 7)
         ||| ((if enableY then 1 else 0) <<< 6)
         ||| ((if enableZ then 1 else 0) <<< 5)
         ||| ((if polarity then 1 else 0) <<< 2)
         ||| ((if latch then 1 else 0) <<< 1)
         ||| (if enableInt then 1 else 0)
  (({ s with regs := regWrite s.regs LIS3MDL_REG_INT_CFG value }),
   [.writeReg LIS3MDL_REG_INT_CFG value])

/-- Value of a `float` output of `readMagneticField`: a rational, or the
NAN sentinel. -/
inductive FloatVal where
  | nan
  | val (q : ℚ)
  deriving DecidableEq

/-- Embedding of `Adafruit_LIS3MDL::readMagneticField`: its own 6-byte read from
OUT_X_L into `int16_t data[3]` (little-endian reinterpretation); on bus
failure set all outputs to NAN and return 0; on success convert each
axis with the fixed factor `raw * 4.0 * 100.0 / 32768.0` and return 1. -/
def readMagneticField (bus : Bus6) (_s : Dev) :
    Int × (FloatVal × FloatVal × FloatVal) :=
  if !bus.ok then
    (0, (.nan, .nan, .nan))
  else
    let b : Fin 6 → Nat := fun i => bus.bytes i % 256
    let d0 := toInt16 (b 0 ||| (b 1 <<< 8))
    let d1 := toInt16 (b 2 ||| (b 3 <<< 8))
    let d2 := toInt16 (b 4 ||| (b 5 <<< 8))
    (1, (.val ((d0 : ℚ) * 4 * 100 / 32768),
         .val ((d1 : ℚ) * 4 * 100 / 32768),
         .val ((d2 : ℚ) * 4 * 100 / 32768)))

/-- The byte a read-modify-write of a `width`-bit field at `offset`
stores, given the old byte `x` and the requested field value `v`
(the register-value computation inside `bitsWrite`). -/
def wv (x w o v : Nat) : Nat :=
  (x &&& (255 ^^^ ((2 ^ w - 1) <<< o))) ||| ((v &&& (2 ^ w - 1)) <<< o)

/-- Byte pattern delivered by the bus for the raw sample
(1000, -2000, 500): little-endian signed 16-bit per axis. -/
def exampleBytes : Fin 6 → Nat
  | 0 => 0xE8
  | 1 => 0x03
  | 2 => 0x30
  | 3 => 0xF8
  | 4 => 0xF4
  | 5 => 0x01

/-- The performance mode `setDataRate` pairs with each fast-ODR rate
(the if-chain at the top of `setDataRate`); `none` for the eight
non-fast rates. -/
def pairedMode : lis3mdl_dataRate_t → Option lis3mdl_performancemode_t
  | .rate155 => some .ultrahigh
  | .rate300 => some .high
  | .rate560 => some .medium
  | .rate1000 => some .lowpower
  | _ => none

/-- The byte `setDataRate` stores in CTRL_REG1: the read-modify-write
byte for the 4-bit rate field, computed over the register file left by
the optional paired performance-mode write. -/
def rateByte (dr : lis3mdl_dataRate_t) (s : Dev) : Nat :=
  wv (regRead (match pairedMode dr with
               | some m => (setPerformanceMode m s).1
               | none => s).regs LIS3MDL_REG_CTRL_REG1) 4 1 dr.toNat

/-- The state `_init` leaves on the successful path: reset, then
ultra-high performance, then 155 Hz, then ±4 gauss, then continuous. -/
def initChain (g : RegFile) (s : Dev) : Dev :=
  (setOperationMode .continuous (setRange .range4
    (setDataRate .rate155 (setPerformanceMode .ultrahigh (reset g s).1).1).1).1).1

lemma bitsWrite_fst (regs : RegFile) (a w o v : Nat) :
    (bitsWrite regs a w o v).1 = regWrite regs a (wv (regRead regs a) w o v) := rfl

lemma bitsWrite_snd (regs : RegFile) (a w o v : Nat) :
    (bitsWrite regs a w o v).2 =
      [.readReg a, .writeReg a (wv (regRead regs a) w o v)] := rfl

lemma regRead_lt (regs : RegFile) (a : Nat) : regRead regs a < 256 :=
  Nat.mod_lt _ (by norm_num)

lemma regRead_regWrite_self (regs : RegFile) (a val : Nat) :
    regRead (regWrite regs a val) a = val % 256 := by
  simp [regRead, regWrite]

lemma regRead_regWrite_ne (regs : RegFile) (a a' val : Nat) (h : a' ≠ a) :
    regRead (regWrite regs a val) a' = regRead regs a' := by
  simp [regRead, regWrite, h]

lemma bitsRead_regWrite_self (regs : RegFile) (a val w o : Nat) :
    bitsRead (regWrite regs a val) a w o = ((val % 256) >>> o) &&& (2 ^ w - 1) := by
  simp [bitsRead, regRead_regWrite_self]

lemma bitsRead_regWrite_ne (regs : RegFile) (a a' val w o : Nat) (h : a' ≠ a) :
    bitsRead (regWrite regs a val) a' w o = bitsRead regs a' w o := by
  simp [bitsRead, regRead_regWrite_ne _ _ _ _ h]

set_option maxRecDepth 20000

/-- Writing a 2-bit field at offset 5 then reading it back yields the
written value. -/
lemma wv_roundtrip_2_5 : ∀ x < 256, ∀ v < 4, ((wv x 2 5 v % 256) >>> 5) &&& 3 = v := by
  decide

/-- Writing a 2-bit field at offset 2 then reading it back yields the
written value. -/
lemma wv_roundtrip_2_2 : ∀ x < 256, ∀ v < 4, ((wv x 2 2 v % 256) >>> 2) &&& 3 = v := by
  decide

/-- Writing a 2-bit field at offset 0 then reading it back yields the
written value. -/
lemma wv_roundtrip_2_0 : ∀ x < 256, ∀ v < 4, ((wv x 2 0 v % 256) >>> 0) &&& 3 = v := by
  decide

/-- Writing the 4-bit field at offset 1 then reading it back yields the
written value. -/
lemma wv_roundtrip_4_1 : ∀ x < 256, ∀ v < 16, ((wv x 4 1 v % 256) >>> 1) &&& 15 = v := by
  decide

/-- Writing the 4-bit field at offset 1 preserves the 2-bit field at
offset 5 of the same byte. -/
lemma wv_4_1_preserves_2_5 :
    ∀ x < 256, ∀ v < 16, ((wv x 4 1 v % 256) >>> 5) &&& 3 = (x >>> 5) &&& 3 := by
  decide

/-- Writing the 2-bit field at offset 5 preserves the 4-bit field at
offset 1 of the same byte. -/
lemma wv_2_5_preserves_4_1 :
    ∀ x < 256, ∀ v < 4, ((wv x 2 5 v % 256) >>> 1) &&& 15 = (x >>> 1) &&& 15 := by
  decide

/-- Writing 1 to the 1-bit field at offset 2 sets bit 2 of the stored
byte. -/
lemma wv_bit_1_2 : ∀ x < 256, ((wv x 1 2 1 % 256) >>> 2) &&& 1 = 1 := by
  decide

/-- Read-modify-write of a field, then reading a field of another
register, sees the old register file. -/
lemma bitsRead_bitsWrite_ne (g : RegFile) (a a' w o w' o' v : Nat) (h : a' ≠ a) :
    bitsRead (bitsWrite g a w o v).1 a' w' o' = bitsRead g a' w' o' := by
  rw [bitsWrite_fst]; exact bitsRead_regWrite_ne _ _ _ _ _ _ h

/-- Round trip for a 2-bit field at offset 5. -/
lemma bitsWrite_read_2_5 (g : RegFile) (a v : Nat) (hv : v < 4) :
    bitsRead (bitsWrite g a 2 5 v).1 a 2 5 = v := by
  rw [bitsWrite_fst, bitsRead_regWrite_self]
  exact wv_roundtrip_2_5 _ (regRead_lt g a) v hv

/-- Round trip for a 2-bit field at offset 2. -/
lemma bitsWrite_read_2_2 (g : RegFile) (a v : Nat) (hv : v < 4) :
    bitsRead (bitsWrite g a 2 2 v).1 a 2 2 = v := by
  rw [bitsWrite_fst, bitsRead_regWrite_self]
  exact wv_roundtrip_2_2 _ (regRead_lt g a) v hv

/-- Round trip for a 2-bit field at offset 0. -/
lemma bitsWrite_read_2_0 (g : RegFile) (a v : Nat) (hv : v < 4) :
    bitsRead (bitsWrite g a 2 0 v).1 a 2 0 = v := by
  rw [bitsWrite_fst, bitsRead_regWrite_self]
  exact wv_roundtrip_2_0 _ (regRead_lt g a) v hv

/-- Round trip for the 4-bit field at offset 1. -/
lemma bitsWrite_read_4_1 (g : RegFile) (a v : Nat) (hv : v < 16) :
    bitsRead (bitsWrite g a 4 1 v).1 a 4 1 = v := by
  rw [bitsWrite_fst, bitsRead_regWrite_self]
  exact wv_roundtrip_4_1 _ (regRead_lt g a) v hv

/-- The 4-bit write at offset 1 preserves the 2-bit field at offset 5 of
the same register. -/
lemma bitsWrite_4_1_pres_2_5 (g : RegFile) (a v : Nat) (hv : v < 16) :
    bitsRead (bitsWrite g a 4 1 v).1 a 2 5 = bitsRead g a 2 5 := by
  rw [bitsWrite_fst, bitsRead_regWrite_self]
  exact wv_4_1_preserves_2_5 _ (regRead_lt g a) v hv

lemma range_toNat_lt (r : lis3mdl_range_t) : r.toNat < 4 := by
  cases r <;> simp [lis3mdl_range_t.toNat]

lemma rangeOfNat_toNat (r : lis3mdl_range_t) : rangeOfNat r.toNat = r := by
  cases r <;> simp [lis3mdl_range_t.toNat, rangeOfNat]

lemma perf_toNat_lt (m : lis3mdl_performancemode_t) : m.toNat < 4 := by
  cases m <;> simp [lis3mdl_performancemode_t.toNat]

lemma perfOfNat_toNat (m : lis3mdl_performancemode_t) : perfOfNat m.toNat = m := by
  cases m <;> simp [lis3mdl_performancemode_t.toNat, perfOfNat]

lemma dataRate_toNat_lt (r : lis3mdl_dataRate_t) : r.toNat < 16 := by
  cases r <;> simp [lis3mdl_dataRate_t.toNat]

/-- After `setPerformanceMode m`, the X/Y field of CTRL_REG1 holds
`m.toNat`. -/
lemma setPerf_field_xy (m : lis3mdl_performancemode_t) (s : Dev) :
    bitsRead (setPerformanceMode m s).1.regs LIS3MDL_REG_CTRL_REG1 2 5 = m.toNat := by
  show bitsRead (regWrite (regWrite s.regs LIS3MDL_REG_CTRL_REG1 _)
      LIS3MDL_REG_CTRL_REG4 _) LIS3MDL_REG_CTRL_REG1 2 5 = m.toNat
  rw [bitsRead_regWrite_ne _ _ _ _ _ _ (by norm_num [LIS3MDL_REG_CTRL_REG1, LIS3MDL_REG_CTRL_REG4]),
      bitsRead_regWrite_self]
  exact wv_roundtrip_2_5 _ (regRead_lt s.regs _) _ (perf_toNat_lt m)

/-- After `setPerformanceMode m`, the Z field of CTRL_REG4 holds
`m.toNat`. -/
lemma setPerf_field_z (m : lis3mdl_performancemode_t) (s : Dev) :
    bitsRead (setPerformanceMode m s).1.regs LIS3MDL_REG_CTRL_REG4 2 2 = m.toNat := by
  show bitsRead (regWrite (regWrite s.regs LIS3MDL_REG_CTRL_REG1 _)
      LIS3MDL_REG_CTRL_REG4 _) LIS3MDL_REG_CTRL_REG4 2 2 = m.toNat
  rw [bitsRead_regWrite_self]
  exact wv_roundtrip_2_2 _ (regRead_lt _ _) _ (perf_toNat_lt m)

/-- Reading the performance mode back after `setPerformanceMode m` returns `m`. -/
lemma getPerf_setPerf (m : lis3mdl_performancemode_t) (s : Dev) :
    getPerformanceMode (setPerformanceMode m s).1 = m := by
  unfold getPerformanceMode
  rw [setPerf_field_xy, perfOfNat_toNat]

/-- Running `read` on a bus outcome with the same buffer bytes is
independent of the transport's success flag. -/
lemma read_ok_irrel (ok ok' : Bool) (b : Fin 6 → Nat) (s : Dev) :
    read ⟨ok, b⟩ s = read ⟨ok', b⟩ s := rfl

/-- Gauss values produced by `read` on the example sample
(1000, -2000, 500) at the default ±4 gauss range. -/
lemma example_gauss :
    (read ⟨true, exampleBytes⟩ (mkDev fun _ => 0)).x_gauss = 1000 / 6842
  ∧ (read ⟨true, exampleBytes⟩ (mkDev fun _ => 0)).y_gauss = -2000 / 6842
  ∧ (read ⟨true, exampleBytes⟩ (mkDev fun _ => 0)).z_gauss = 500 / 6842 := by
  refine ⟨?_, ?_, ?_⟩
  · have h : (read ⟨true, exampleBytes⟩ (mkDev fun _ => 0)).x_gauss
        = ((toInt16 1000 : Int) : ℚ) / 6842 := rfl
    rw [h]; norm_num [toInt16]
  · have h : (read ⟨true, exampleBytes⟩ (mkDev fun _ => 0)).y_gauss
        = ((toInt16 63536 : Int) : ℚ) / 6842 := rfl
    rw [h]; norm_num [toInt16]
  · have h : (read ⟨true, exampleBytes⟩ (mkDev fun _ => 0)).z_gauss
        = ((toInt16 500 : Int) : ℚ) / 6842 := rfl
    rw [h]; norm_num [toInt16]

/-- C1: for every range setting, `read()` decodes the three little-endian
signed 16-bit raw samples and converts each to gauss by dividing by the
scale constant {6842, 3421, 2281, 1711} for {±4, ±8, ±12, ±16} gauss,
selected by the cached `rangeBuffered` (the gauss outputs do not depend
on the device register file, so the range is not re-read); concretely,
raw (1000, -2000, 500) at ±4 gauss yields
(1000/6842, -2000/6842, 500/6842), which agree with the quoted
(0.1461, -0.2922, 0.0731) to within 1/2000. -/
theorem C1_read_range_scale_conversion :
    (∀ (bus : Bus6) (s : Dev),
        (read bus s).x = toInt16 ((bus.bytes 0 % 256) ||| ((bus.bytes 1 % 256) <<< 8))
      ∧ (read bus s).y = toInt16 ((bus.bytes 2 % 256) ||| ((bus.bytes 3 % 256) <<< 8))
      ∧ (read bus s).z = toInt16 ((bus.bytes 4 % 256) ||| ((bus.bytes 5 % 256) <<< 8))
      ∧ (read bus s).x_gauss = ((read bus s).x : ℚ) / scaleOf s.rangeBuffered
      ∧ (read bus s).y_gauss = ((read bus s).y : ℚ) / scaleOf s.rangeBuffered
      ∧ (read bus s).z_gauss = ((read bus s).z : ℚ) / scaleOf s.rangeBuffered)
  ∧ (scaleOf .range4 = 6842 ∧ scaleOf .range8 = 3421
      ∧ scaleOf .range12 = 2281 ∧ scaleOf .range16 = 1711)
  ∧ (∀ (bus : Bus6) (s : Dev) (g : RegFile),
        (read bus { s with regs := g }).x_gauss = (read bus s).x_gauss
      ∧ (read bus { s with regs := g }).y_gauss = (read bus s).y_gauss
      ∧ (read bus { s with regs := g }).z_gauss = (read bus s).z_gauss)
  ∧ ((read ⟨true, exampleBytes⟩ (mkDev fun _ => 0)).x_gauss = 1000 / 6842
      ∧ (read ⟨true, exampleBytes⟩ (mkDev fun _ => 0)).y_gauss = -2000 / 6842
      ∧ (read ⟨true, exampleBytes⟩ (mkDev fun _ => 0)).z_gauss = 500 / 6842
      ∧ |(read ⟨true, exampleBytes⟩ (mkDev fun _ => 0)).x_gauss - 0.1461| < 1 / 2000
      ∧ |(read ⟨true, exampleBytes⟩ (mkDev fun _ => 0)).y_gauss - (-0.2922)| < 1 / 2000
      ∧ |(read ⟨true, exampleBytes⟩ (mkDev fun _ => 0)).z_gauss - 0.0731| < 1 / 2000) := by
  refine ⟨fun bus s => ⟨rfl, rfl, rfl, rfl, rfl, rfl⟩,
          ⟨rfl, rfl, rfl, rfl⟩,
          fun bus s g => ⟨rfl, rfl, rfl⟩,
          example_gauss.1, example_gauss.2.1, example_gauss.2.2, ?_, ?_, ?_⟩
  · rw [example_gauss.1, abs_lt]; constructor <;> norm_num
  · rw [example_gauss.2.1, abs_lt]; constructor <;> norm_num
  · rw [example_gauss.2.2, abs_lt]; constructor <;> norm_num

/-- Unfolding lemma: `getPerformanceMode` is the X/Y field of CTRL_REG1, decoded. -/
lemma getPerf_eq (s : Dev) :
    getPerformanceMode s = perfOfNat (bitsRead s.regs LIS3MDL_REG_CTRL_REG1 2 5) := rfl

/-- Register file after `setDataRate`: the rate-field write applied on
top of the paired performance-mode write (if any). -/
lemma setDataRate_fst_regs (dr : lis3mdl_dataRate_t) (s : Dev) :
    (setDataRate dr s).1.regs =
      (bitsWrite (match pairedMode dr with
                  | some m => (setPerformanceMode m s).1
                  | none => s).regs LIS3MDL_REG_CTRL_REG1 4 1 dr.toNat).1 := by
  cases dr <;> rfl

/-- Trace of `setDataRate`: optional performance-mode transactions, the
10 ms delay, then the rate-field read-modify-write. -/
lemma setDataRate_snd (dr : lis3mdl_dataRate_t) (s : Dev) :
    (setDataRate dr s).2 =
      (match pairedMode dr with
       | some m => (setPerformanceMode m s).2
       | none => []) ++ [.delay 10] ++
      (bitsWrite (match pairedMode dr with
                  | some m => (setPerformanceMode m s).1
                  | none => s).regs LIS3MDL_REG_CTRL_REG1 4 1 dr.toNat).2 := by
  cases dr <;> rfl

/-- The call `setDataRate` leaves `rangeBuffered` and the transport slots alone. -/
lemma setDataRate_fst_rest (dr : lis3mdl_dataRate_t) (s : Dev) :
    (setDataRate dr s).1.rangeBuffered = s.rangeBuffered
  ∧ (setDataRate dr s).1.i2c_dev = s.i2c_dev
  ∧ (setDataRate dr s).1.spi_dev = s.spi_dev := by
  cases dr <;> exact ⟨rfl, rfl, rfl⟩

/-- C6: `setPerformanceMode m` writes the same 2-bit value `m` to both
the X/Y field (CTRL_REG1 offset 5) and the Z field (CTRL_REG4 offset 2),
each by read-modify-write; afterwards the two fields are identical and
`getPerformanceMode`, which reads only the X/Y field (it is a function
of the CTRL_REG1 byte alone), returns `m`. -/
theorem C6_setPerformanceMode_both_fields :
    (∀ (m : lis3mdl_performancemode_t) (s : Dev),
        bitsRead (setPerformanceMode m s).1.regs LIS3MDL_REG_CTRL_REG1 2 5 = m.toNat
      ∧ bitsRead (setPerformanceMode m s).1.regs LIS3MDL_REG_CTRL_REG4 2 2 = m.toNat
      ∧ bitsRead (setPerformanceMode m s).1.regs LIS3MDL_REG_CTRL_REG1 2 5
          = bitsRead (setPerformanceMode m s).1.regs LIS3MDL_REG_CTRL_REG4 2 2
      ∧ getPerformanceMode (setPerformanceMode m s).1 = m
      ∧ (setPerformanceMode m s).2 =
          [.readReg LIS3MDL_REG_CTRL_REG1,
           .writeReg LIS3MDL_REG_CTRL_REG1
             (wv (regRead s.regs LIS3MDL_REG_CTRL_REG1) 2 5 m.toNat),
           .readReg LIS3MDL_REG_CTRL_REG4,
           .writeReg LIS3MDL_REG_CTRL_REG4
             (wv (regRead (regWrite s.regs LIS3MDL_REG_CTRL_REG1
                    (wv (regRead s.regs LIS3MDL_REG_CTRL_REG1) 2 5 m.toNat))
                  LIS3MDL_REG_CTRL_REG4) 2 2 m.toNat)])
  ∧ (∀ (s t : Dev),
        s.regs LIS3MDL_REG_CTRL_REG1 = t.regs LIS3MDL_REG_CTRL_REG1 →
        getPerformanceMode s = getPerformanceMode t) := by
  constructor
  · intro m s
    refine ⟨setPerf_field_xy m s, setPerf_field_z m s, ?_, getPerf_setPerf m s, rfl⟩
    rw [setPerf_field_xy, setPerf_field_z]
  · intro s t h
    rw [getPerf_eq, getPerf_eq]
    unfold bitsRead regRead
    rw [h]

/-- C6 witness: the theorem instantiated at the high mode on a zeroed
register file, and at two states agreeing on CTRL_REG1. -/
theorem C6_setPerformanceMode_both_fields_witness :
    getPerformanceMode (setPerformanceMode .high (mkDev fun _ => 0)).1 = .high
  ∧ getPerformanceMode (mkDev fun _ => 0)
      = getPerformanceMode (mkDev fun a => if a = LIS3MDL_REG_CTRL_REG1 then 0 else 5) :=
  ⟨(C6_setPerformanceMode_both_fields.1 .high (mkDev fun _ => 0)).2.2.2.1,
   C6_setPerformanceMode_both_fields.2 (mkDev fun _ => 0)
     (mkDev fun a => if a = LIS3MDL_REG_CTRL_REG1 then 0 else 5) (by decide)⟩

/-- C2: for every data rate, `setDataRate` first sets the paired
performance mode for the four fast-ODR rates (155↔ultra-high, 300↔high,
560↔medium, 1000↔low-power) — so `getPerformanceMode` then returns the
paired mode — and leaves both performance-mode fields unchanged for the
other eight rates; in both cases its trace is (optional performance-mode
transactions, then) a 10 ms delay followed by the read-modify-write that
stores the rate enumerator verbatim in the 4-bit field at offset 1 of
CTRL_REG1. -/
theorem C2_setDataRate_fast_odr_pairing :
    (pairedMode .rate155 = some .ultrahigh ∧ pairedMode .rate300 = some .high
      ∧ pairedMode .rate560 = some .medium ∧ pairedMode .rate1000 = some .lowpower)
  ∧ (∀ (dr : lis3mdl_dataRate_t) (s : Dev),
      match pairedMode dr with
      | some m => getPerformanceMode (setDataRate dr s).1 = m
      | none =>
          bitsRead (setDataRate dr s).1.regs LIS3MDL_REG_CTRL_REG1 2 5
            = bitsRead s.regs LIS3MDL_REG_CTRL_REG1 2 5
        ∧ bitsRead (setDataRate dr s).1.regs LIS3MDL_REG_CTRL_REG4 2 2
            = bitsRead s.regs LIS3MDL_REG_CTRL_REG4 2 2)
  ∧ (∀ (dr : lis3mdl_dataRate_t) (s : Dev),
      getDataRateBits (setDataRate dr s).1 = dr.toNat)
  ∧ (∀ (dr : lis3mdl_dataRate_t) (s : Dev),
        (setDataRate dr s).2 =
          (match pairedMode dr with
           | some m => (setPerformanceMode m s).2
           | none => []) ++
          [.delay 10, .readReg LIS3MDL_REG_CTRL_REG1,
           .writeReg LIS3MDL_REG_CTRL_REG1 (rateByte dr s)]
      ∧ ((rateByte dr s % 256) >>> 1) &&& 15 = dr.toNat) := by
  refine ⟨⟨rfl, rfl, rfl, rfl⟩, ?_, ?_, ?_⟩
  · intro dr s
    cases dr <;> simp only [pairedMode] <;>
      first
      | (rw [getPerf_eq, setDataRate_fst_regs,
             bitsWrite_4_1_pres_2_5 _ _ _ (dataRate_toNat_lt _)]
         try exact getPerf_setPerf _ _)
      | (constructor
         · rw [setDataRate_fst_regs,
               bitsWrite_4_1_pres_2_5 _ _ _ (dataRate_toNat_lt _)]
           try exact rfl
         · rw [setDataRate_fst_regs,
               bitsRead_bitsWrite_ne _ _ _ _ _ _ _ _
                 (by norm_num [LIS3MDL_REG_CTRL_REG1, LIS3MDL_REG_CTRL_REG4])]
           try exact rfl)
  · intro dr s
    show bitsRead (setDataRate dr s).1.regs LIS3MDL_REG_CTRL_REG1 4 1 = dr.toNat
    rw [setDataRate_fst_regs, bitsWrite_read_4_1 _ _ _ (dataRate_toNat_lt _)]
  · intro dr s
    exact ⟨by cases dr <;> rfl,
           wv_roundtrip_4_1 _ (regRead_lt _ _) _ (dataRate_toNat_lt _)⟩

/-- C3: after `setRange`, `getRange` or `reset` the cached
`rangeBuffered` equals the decoded 2-bit range field of CTRL_REG2 as the
device now holds it (for `reset`: of the post-reset register file `g`,
re-read after the reset-bit write and the 10 ms delay); `setRange r`
followed by `getRange` returns `r`, and the next `read()` divides by
`r`'s scale constant. -/
theorem C3_range_cache_matches_device :
    (∀ (r : lis3mdl_range_t) (s : Dev),
        (setRange r s).1.rangeBuffered = r
      ∧ bitsRead (setRange r s).1.regs LIS3MDL_REG_CTRL_REG2 2 5 = r.toNat
      ∧ rangeOfNat (bitsRead (setRange r s).1.regs LIS3MDL_REG_CTRL_REG2 2 5)
          = (setRange r s).1.rangeBuffered)
  ∧ (∀ s : Dev,
        (getRange s).2.rangeBuffered
          = rangeOfNat (bitsRead s.regs LIS3MDL_REG_CTRL_REG2 2 5)
      ∧ (getRange s).2.regs = s.regs
      ∧ (getRange s).1 = (getRange s).2.rangeBuffered)
  ∧ (∀ (g : RegFile) (s : Dev),
        (reset g s).1.regs = g
      ∧ (reset g s).1.rangeBuffered
          = rangeOfNat (bitsRead g LIS3MDL_REG_CTRL_REG2 2 5)
      ∧ (reset g s).2 =
          [.readReg LIS3MDL_REG_CTRL_REG2,
           .writeReg LIS3MDL_REG_CTRL_REG2
             (wv (regRead s.regs LIS3MDL_REG_CTRL_REG2) 1 2 1),
           .delay 10, .readReg LIS3MDL_REG_CTRL_REG2]
      ∧ ((wv (regRead s.regs LIS3MDL_REG_CTRL_REG2) 1 2 1 % 256) >>> 2) &&& 1 = 1)
  ∧ (∀ (r : lis3mdl_range_t) (s : Dev), (getRange (setRange r s).1).1 = r)
  ∧ (∀ (r : lis3mdl_range_t) (s : Dev) (bus : Bus6),
        (read bus (setRange r s).1).x_gauss
          = ((read bus (setRange r s).1).x : ℚ) / scaleOf r
      ∧ (read bus (setRange r s).1).y_gauss
          = ((read bus (setRange r s).1).y : ℚ) / scaleOf r
      ∧ (read bus (setRange r s).1).z_gauss
          = ((read bus (setRange r s).1).z : ℚ) / scaleOf r) := by
  refine ⟨?_, fun s => ⟨rfl, rfl, rfl⟩, ?_, ?_, fun r s bus => ⟨rfl, rfl, rfl⟩⟩
  · intro r s
    have h := bitsWrite_read_2_5 s.regs LIS3MDL_REG_CTRL_REG2 r.toNat (range_toNat_lt r)
    refine ⟨rfl, h, ?_⟩
    show rangeOfNat (bitsRead (bitsWrite s.regs LIS3MDL_REG_CTRL_REG2 2 5 r.toNat).1
        LIS3MDL_REG_CTRL_REG2 2 5) = r
    rw [h, rangeOfNat_toNat]
  · intro g s
    exact ⟨rfl, rfl, rfl, wv_bit_1_2 _ (regRead_lt _ _)⟩
  · intro r s
    have h := bitsWrite_read_2_5 s.regs LIS3MDL_REG_CTRL_REG2 r.toNat (range_toNat_lt r)
    show rangeOfNat (bitsRead (bitsWrite s.regs LIS3MDL_REG_CTRL_REG2 2 5 r.toNat).1
        LIS3MDL_REG_CTRL_REG2 2 5) = r
    rw [h, rangeOfNat_toNat]

/-- C7: for every combination of the six flags, `configInterrupt` stores
in INT_CFG exactly the byte `0x08 | enableX<<7 | enableY<<6 | enableZ<<5
| polarity<<2 | latch<<1 | enableInt` (stated as the equivalent sum of
the weighted flag bits, reserved bit 3 always set), as a plain overwrite:
its trace is a single register write with no prior read, and the stored
byte is independent of the register file's previous contents. -/
theorem C7_configInterrupt_plain_overwrite :
    ∀ (eX eY eZ pol lat eInt : Bool) (s t : Dev),
      ((configInterrupt eX eY eZ pol lat eInt s).1.regs LIS3MDL_REG_INT_CFG
         = 8 + (cond eX 128 0) + (cond eY 64 0) + (cond eZ 32 0)
             + (cond pol 4 0) + (cond lat 2 0) + (cond eInt 1 0))
    ∧ Nat.testBit
        (8 + (cond eX 128 0) + (cond eY 64 0) + (cond eZ 32 0)
           + (cond pol 4 0) + (cond lat 2 0) + (cond eInt 1 0)) 3 = true
    ∧ ((configInterrupt eX eY eZ pol lat eInt s).2
         = [.writeReg LIS3MDL_REG_INT_CFG
              ((configInterrupt eX eY eZ pol lat eInt s).1.regs LIS3MDL_REG_INT_CFG)])
    ∧ (configInterrupt eX eY eZ pol lat eInt s).1.regs LIS3MDL_REG_INT_CFG
        = (configInterrupt eX eY eZ pol lat eInt t).1.regs LIS3MDL_REG_INT_CFG := by
  intro eX eY eZ pol lat eInt s t
  cases eX <;> cases eY <;> cases eZ <;> cases pol <;> cases lat <;> cases eInt <;>
    exact ⟨rfl, by decide, rfl, rfl⟩

/-- C8: `read()` returns no status — its result is the same function of
the buffer bytes whether the 6-byte bus transfer reported success or
failure — and `getEvent()` returns `true` unconditionally. -/
theorem C8_read_getEvent_no_status :
    (∀ (ok ok' : Bool) (b : Fin 6 → Nat) (s : Dev),
        read ⟨ok, b⟩ s = read ⟨ok', b⟩ s)
  ∧ (∀ (bus : Bus6) (sid : Int) (now : Nat) (s : Dev),
        (getEvent bus sid now s).1 = true) :=
  ⟨fun _ _ _ _ => rfl, fun _ _ _ _ => rfl⟩

lemma setRange_regs (r : lis3mdl_range_t) (s : Dev) :
    (setRange r s).1.regs =
      (bitsWrite s.regs LIS3MDL_REG_CTRL_REG2 2 5 r.toNat).1 := rfl

lemma setOperationMode_regs (m : lis3mdl_operationmode_t) (s : Dev) :
    (setOperationMode m s).1.regs =
      (bitsWrite s.regs LIS3MDL_REG_CTRL_REG3 2 0 m.toNat).1 := rfl

lemma getDataRateBits_eq (s : Dev) :
    getDataRateBits s = bitsRead s.regs LIS3MDL_REG_CTRL_REG1 4 1 := rfl

lemma getOperationModeBits_eq (s : Dev) :
    getOperationModeBits s = bitsRead s.regs LIS3MDL_REG_CTRL_REG3 2 0 := rfl

lemma _init_success (g : RegFile) (s : Dev)
    (h : regRead s.regs LIS3MDL_REG_WHO_AM_I = 0x3D) :
    (_init g s).1 = true ∧ (_init g s).2.1 = initChain g s := by
  unfold _init
  rw [if_neg (not_not_intro h)]
  exact ⟨rfl, rfl⟩

lemma _init_success_trace (g : RegFile) (s : Dev)
    (h : regRead s.regs LIS3MDL_REG_WHO_AM_I = 0x3D) :
    (_init g s).2.2 = .readReg LIS3MDL_REG_WHO_AM_I ::
      ((reset g s).2
        ++ (setPerformanceMode .ultrahigh (reset g s).1).2
        ++ (setDataRate .rate155 (setPerformanceMode .ultrahigh (reset g s).1).1).2
        ++ (setRange .range4 (setDataRate .rate155
              (setPerformanceMode .ultrahigh (reset g s).1).1).1).2
        ++ (setOperationMode .continuous (setRange .range4 (setDataRate .rate155
              (setPerformanceMode .ultrahigh (reset g s).1).1).1).1).2) := by
  unfold _init
  rw [if_neg (not_not_intro h)]

/-- C4: `_init` first reads the identity register; if it is not 0x3D it
returns false, leaves the handle untouched, and its trace is only that
read (no register write); otherwise it performs reset, then performance
mode ultra-high, then 155 Hz, then ±4 gauss, then continuous mode, in
that order, returns true, and the resulting state has
performance = ultra-high, rate field = 0b0001 (155 Hz),
range = ±4 gauss (cache and device field), operation mode = continuous. -/
theorem C4_init_identity_check_and_defaults :
    (∀ (g : RegFile) (s : Dev), regRead s.regs LIS3MDL_REG_WHO_AM_I ≠ 0x3D →
        (_init g s).1 = false
      ∧ (_init g s).2.1 = s
      ∧ (_init g s).2.2 = [.readReg LIS3MDL_REG_WHO_AM_I])
  ∧ (∀ (g : RegFile) (s : Dev), regRead s.regs LIS3MDL_REG_WHO_AM_I = 0x3D →
        (_init g s).1 = true
      ∧ (_init g s).2.1 = initChain g s
      ∧ (_init g s).2.2 = .readReg LIS3MDL_REG_WHO_AM_I ::
          ((reset g s).2
            ++ (setPerformanceMode .ultrahigh (reset g s).1).2
            ++ (setDataRate .rate155 (setPerformanceMode .ultrahigh (reset g s).1).1).2
            ++ (setRange .range4 (setDataRate .rate155
                  (setPerformanceMode .ultrahigh (reset g s).1).1).1).2
            ++ (setOperationMode .continuous (setRange .range4 (setDataRate .rate155
                  (setPerformanceMode .ultrahigh (reset g s).1).1).1).1).2)
      ∧ getPerformanceMode (_init g s).2.1 = .ultrahigh
      ∧ getDataRateBits (_init g s).2.1 = lis3mdl_dataRate_t.rate155.toNat
      ∧ (_init g s).2.1.rangeBuffered = .range4
      ∧ bitsRead (_init g s).2.1.regs LIS3MDL_REG_CTRL_REG2 2 5
          = lis3mdl_range_t.range4.toNat
      ∧ getOperationModeBits (_init g s).2.1
          = lis3mdl_operationmode_t.continuous.toNat) := by
  constructor
  · intro g s h
    unfold _init
    rw [if_pos h]
    exact ⟨rfl, rfl, rfl⟩
  · intro g s h
    obtain ⟨h1, h2⟩ := _init_success g s h
    refine ⟨h1, h2, _init_success_trace g s h, ?_, ?_, ?_, ?_, ?_⟩
    · rw [h2, initChain, getPerf_eq, setOperationMode_regs,
          bitsRead_bitsWrite_ne _ _ _ _ _ _ _ _
            (by norm_num [LIS3MDL_REG_CTRL_REG1, LIS3MDL_REG_CTRL_REG3]),
          setRange_regs,
          bitsRead_bitsWrite_ne _ _ _ _ _ _ _ _
            (by norm_num [LIS3MDL_REG_CTRL_REG1, LIS3MDL_REG_CTRL_REG2]),
          setDataRate_fst_regs,
          bitsWrite_4_1_pres_2_5 _ _ _ (dataRate_toNat_lt _)]
      exact getPerf_setPerf _ _
    · rw [h2, initChain, getDataRateBits_eq, setOperationMode_regs,
          bitsRead_bitsWrite_ne _ _ _ _ _ _ _ _
            (by norm_num [LIS3MDL_REG_CTRL_REG1, LIS3MDL_REG_CTRL_REG3]),
          setRange_regs,
          bitsRead_bitsWrite_ne _ _ _ _ _ _ _ _
            (by norm_num [LIS3MDL_REG_CTRL_REG1, LIS3MDL_REG_CTRL_REG2]),
          setDataRate_fst_regs,
          bitsWrite_read_4_1 _ _ _ (dataRate_toNat_lt _)]
    · rw [h2]; rfl
    · rw [h2, initChain, setOperationMode_regs,
          bitsRead_bitsWrite_ne _ _ _ _ _ _ _ _
            (by norm_num [LIS3MDL_REG_CTRL_REG2, LIS3MDL_REG_CTRL_REG3]),
          setRange_regs,
          bitsWrite_read_2_5 _ _ _ (range_toNat_lt _)]
    · rw [h2, initChain, getOperationModeBits_eq, setOperationMode_regs,
          bitsWrite_read_2_0 _ _ _ (by norm_num [lis3mdl_operationmode_t.toNat])]

/-- C4 witness: `_init` at a device reporting identity 0 fails; at a
device reporting 0x3D it succeeds with the ultra-high default. -/
theorem C4_init_identity_check_and_defaults_witness :
    (_init (fun _ => 0) (mkDev fun _ => 0)).1 = false
  ∧ (_init (fun _ => 0) (mkDev fun _ => 0x3D)).1 = true
  ∧ getPerformanceMode (_init (fun _ => 0) (mkDev fun _ => 0x3D)).2.1 = .ultrahigh :=
  ⟨(C4_init_identity_check_and_defaults.1 (fun _ => 0) (mkDev fun _ => 0)
      (by decide)).1,
   (C4_init_identity_check_and_defaults.2 (fun _ => 0) (mkDev fun _ => 0x3D)
      (by decide)).1,
   (C4_init_identity_check_and_defaults.2 (fun _ => 0) (mkDev fun _ => 0x3D)
      (by decide)).2.2.2.1⟩

lemma _init_slots (g : RegFile) (s : Dev) :
    (_init g s).2.1.i2c_dev = s.i2c_dev ∧ (_init g s).2.1.spi_dev = s.spi_dev := by
  unfold _init
  split
  · exact ⟨rfl, rfl⟩
  · exact ⟨rfl, rfl⟩

/-- C10: after any attempted bind, the chosen transport slot is occupied
and the other cleared, however the handshake and the identity check turn
out; the outcome is independent of whatever bindings were previously
held; and a failed handshake yields `false` with no device register
traffic at all. -/
theorem C10_exactly_one_transport_slot :
    (∀ (addr : Nat) (ok : Bool) (g : RegFile) (s : Dev),
        (begin_I2C addr ok g s).2.1.i2c_dev = some ⟨addr⟩
      ∧ (begin_I2C addr ok g s).2.1.spi_dev = none
      ∧ (∀ d e, begin_I2C addr ok g { s with i2c_dev := d, spi_dev := e }
            = begin_I2C addr ok g s))
  ∧ (∀ (addr : Nat) (g : RegFile) (s : Dev),
        (begin_I2C addr false g s).1 = false
      ∧ (begin_I2C addr false g s).2.1.regs = s.regs
      ∧ (begin_I2C addr false g s).2.2 = [])
  ∧ (∀ (cs freq : Nat) (ok : Bool) (g : RegFile) (s : Dev),
        (begin_SPI cs freq ok g s).2.1.spi_dev = some (.hw cs freq)
      ∧ (begin_SPI cs freq ok g s).2.1.i2c_dev = none
      ∧ (∀ d e, begin_SPI cs freq ok g { s with i2c_dev := d, spi_dev := e }
            = begin_SPI cs freq ok g s))
  ∧ (∀ (cs freq : Nat) (g : RegFile) (s : Dev),
        (begin_SPI cs freq false g s).1 = false
      ∧ (begin_SPI cs freq false g s).2.1.regs = s.regs
      ∧ (begin_SPI cs freq false g s).2.2 = [])
  ∧ (∀ (cs sck miso mosi : Int) (freq : Nat) (ok : Bool) (g : RegFile) (s : Dev),
        (begin_SPI_soft cs sck miso mosi freq ok g s).2.1.spi_dev
          = some (.sw cs sck miso mosi freq)
      ∧ (begin_SPI_soft cs sck miso mosi freq ok g s).2.1.i2c_dev = none
      ∧ (∀ d e, begin_SPI_soft cs sck miso mosi freq ok g
            { s with i2c_dev := d, spi_dev := e }
            = begin_SPI_soft cs sck miso mosi freq ok g s))
  ∧ (∀ (cs sck miso mosi : Int) (freq : Nat) (g : RegFile) (s : Dev),
        (begin_SPI_soft cs sck miso mosi freq false g s).1 = false
      ∧ (begin_SPI_soft cs sck miso mosi freq false g s).2.1.regs = s.regs
      ∧ (begin_SPI_soft cs sck miso mosi freq false g s).2.2 = []) := by
  refine ⟨?_, fun addr g s => ⟨rfl, rfl, rfl⟩,
          ?_, fun cs freq g s => ⟨rfl, rfl, rfl⟩,
          ?_, fun cs sck miso mosi freq g s => ⟨rfl, rfl, rfl⟩⟩
  · intro addr ok g s
    cases ok
    · exact ⟨rfl, rfl, fun d e => rfl⟩
    · exact ⟨(_init_slots g _).1, (_init_slots g _).2, fun d e => rfl⟩
  · intro cs freq ok g s
    cases ok
    · exact ⟨rfl, rfl, fun d e => rfl⟩
    · exact ⟨(_init_slots g _).2, (_init_slots g _).1, fun d e => rfl⟩
  · intro cs sck miso mosi freq ok g s
    cases ok
    · exact ⟨rfl, rfl, fun d e => rfl⟩
    · exact ⟨(_init_slots g _).2, (_init_slots g _).1, fun d e => rfl⟩

/-- C9: `readMagneticField` has exactly two outcomes: on bus failure it
returns status 0 with all three outputs set to the NAN sentinel; on
success it returns status 1 with proper values; the status is 0 iff the
6-byte read failed. -/
theorem C9_readMagneticField_failure_reporting :
    (∀ (b : Fin 6 → Nat) (s : Dev),
        readMagneticField ⟨false, b⟩ s = (0, (.nan, .nan, .nan)))
  ∧ (∀ (b : Fin 6 → Nat) (s : Dev),
        (readMagneticField ⟨true, b⟩ s).1 = 1
      ∧ (readMagneticField ⟨true, b⟩ s).2.1 ≠ FloatVal.nan
      ∧ (readMagneticField ⟨true, b⟩ s).2.2.1 ≠ FloatVal.nan
      ∧ (readMagneticField ⟨true, b⟩ s).2.2.2 ≠ FloatVal.nan)
  ∧ (∀ (bus : Bus6) (s : Dev),
        (readMagneticField bus s).1 = 0 ↔ bus.ok = false) := by
  refine ⟨fun b s => rfl,
          fun b s => ⟨rfl, fun h => FloatVal.noConfusion h,
                      fun h => FloatVal.noConfusion h,
                      fun h => FloatVal.noConfusion h⟩, ?_⟩
  intro bus s
  obtain ⟨ok, b⟩ := bus
  cases ok <;> simp [readMagneticField]

/-- C5: `readMagneticField` converts every axis with the fixed
`raw * 4 * 100 / 32768` factor, independent of the configured range and
of the device registers (its result ignores the driver state entirely);
raw 1000 always yields 400000/32768 = 12.20703125 ≈ 12.207; and its
output differs from the `read()`-based event value (gauss × 100) at
every range other than ±4 gauss. -/
theorem C5_readField_fixed_pm4_scale :
    (∀ (b : Fin 6 → Nat) (s : Dev),
        (readMagneticField ⟨true, b⟩ s).2.1
          = .val ((toInt16 ((b 0 % 256) ||| ((b 1 % 256) <<< 8)) : ℚ) * 4 * 100 / 32768)
      ∧ (readMagneticField ⟨true, b⟩ s).2.2.1
          = .val ((toInt16 ((b 2 % 256) ||| ((b 3 % 256) <<< 8)) : ℚ) * 4 * 100 / 32768)
      ∧ (readMagneticField ⟨true, b⟩ s).2.2.2
          = .val ((toInt16 ((b 4 % 256) ||| ((b 5 % 256) <<< 8)) : ℚ) * 4 * 100 / 32768))
  ∧ (∀ (b : Fin 6 → Nat) (s : Dev) (r : lis3mdl_range_t) (g : RegFile),
        readMagneticField ⟨true, b⟩ { s with rangeBuffered := r, regs := g }
          = readMagneticField ⟨true, b⟩ s)
  ∧ ((readMagneticField ⟨true, exampleBytes⟩ (mkDev fun _ => 0)).2.1
        = .val (400000 / 32768)
      ∧ (400000 / 32768 : ℚ) = 12.20703125
      ∧ |(400000 / 32768 : ℚ) - 12.207| < 1 / 2000)
  ∧ (∀ (s : Dev),
        (readMagneticField ⟨true, exampleBytes⟩ s).2.1
          ≠ .val ((getEvent ⟨true, exampleBytes⟩ 0 0
              { s with rangeBuffered := .range8 }).2.1.magnetic_x)
      ∧ (readMagneticField ⟨true, exampleBytes⟩ s).2.1
          ≠ .val ((getEvent ⟨true, exampleBytes⟩ 0 0
              { s with rangeBuffered := .range12 }).2.1.magnetic_x)
      ∧ (readMagneticField ⟨true, exampleBytes⟩ s).2.1
          ≠ .val ((getEvent ⟨true, exampleBytes⟩ 0 0
              { s with rangeBuffered := .range16 }).2.1.magnetic_x)) := by
  refine ⟨fun b s => ⟨rfl, rfl, rfl⟩, fun b s r g => rfl, ⟨?_, by norm_num, ?_⟩, ?_⟩
  · show FloatVal.val ((toInt16 1000 : ℚ) * 4 * 100 / 32768)
        = FloatVal.val (400000 / 32768)
    refine congrArg FloatVal.val ?_
    norm_num [toInt16]
  · rw [abs_lt]; constructor <;> norm_num
  · intro s
    refine ⟨?_, ?_, ?_⟩
    · show FloatVal.val ((toInt16 1000 : ℚ) * 4 * 100 / 32768)
          ≠ FloatVal.val ((toInt16 1000 : ℚ) / 3421 * 100)
      simp only [ne_eq, FloatVal.val.injEq]
      norm_num [toInt16]
    · show FloatVal.val ((toInt16 1000 : ℚ) * 4 * 100 / 32768)
          ≠ FloatVal.val ((toInt16 1000 : ℚ) / 2281 * 100)
      simp only [ne_eq, FloatVal.val.injEq]
      norm_num [toInt16]
    · show FloatVal.val ((toInt16 1000 : ℚ) * 4 * 100 / 32768)
          ≠ FloatVal.val ((toInt16 1000 : ℚ) / 1711 * 100)
      simp only [ne_eq, FloatVal.val.injEq]
      norm_num [toInt16]

end LIS3MDL
